import Mathlib

/-!
Shallow embedding of the `tracing` package (options.go): the `Options`
value with its `Validate`/`TracingEnabled` operations, the `configure`
function that builds span reporters (Zipkin, Jaeger, log sink), composes
them, builds a tracer and installs it in the process-wide global tracer
slot, and the `holder.Close` method that uninstalls it when still owned.

Go pointers/interfaces are modelled as follows: the global tracer slot
(the opentracing global) is a field of an explicit `World` state threaded
through `configure` and `Close`; tracer identity (Go pointer equality) is
modelled by a fresh reference number drawn from the `World` counter at
each tracer construction; a Go `nil` interface value is `Option.none`;
Go's `(value, error)` multi-returns are `Option _ × Option String` pairs;
the injectable Zipkin transport constructor `newZipkin` is a parameter of
`configure`, exactly as in the source.
-/

namespace Tracing

/-- Go `time.Duration` measured in nanoseconds. -/
abbrev Duration := Nat

/-- Go `time.Second` (nanoseconds). -/
def second : Duration := 1000000000

/-- `httpTimeout = 5 * time.Second` from the `var` block of options.go. -/
def httpTimeout : Duration := 5 * second

/-- `Options` struct: zipkin collector URL, jaeger collector URL, and
whether to emit trace spans as log records. -/
structure Options where
  ZipkinURL : String
  JaegerURL : String
  LogTraceSpans : Bool
deriving DecidableEq, Repr

/-- `Options.Validate`: errors iff both Jaeger and Zipkin outputs are
configured at once, returning the error message from the source; `none`
models Go's `nil` error. -/
def Options.Validate (o : Options) : Option String :=
  if o.JaegerURL ≠ "" ∧ o.ZipkinURL ≠ "" then
    some "can't have Jaeger and Zipkin outputs active simultaneously"
  else
    none

/-- `Options.TracingEnabled`: true iff any of the three fields request a
tracing backend. -/
def Options.TracingEnabled (o : Options) : Bool :=
  o.JaegerURL != "" || o.ZipkinURL != "" || o.LogTraceSpans

/-- Opaque handle standing for a constructed `*zipkin.HTTPTransport`
value returned by the injected constructor. -/
structure ZipkinHTTPTransport where
  ref : Nat
deriving DecidableEq, Repr

/-- Options passed to the zipkin transport constructor
(`zipkin.HTTPLogger`, `zipkin.HTTPTimeout`). -/
inductive ZipkinHTTPOption where
  | httpLogger
  | httpTimeout (d : Duration)
deriving DecidableEq, Repr

/-- Options passed to the jaeger transport constructor
(`transport.HTTPTimeout`). -/
inductive JaegerHTTPOption where
  | httpTimeout (d : Duration)
deriving DecidableEq, Repr

/-- A span transport handed to `jaeger.NewRemoteReporter`: either the
zipkin HTTP transport obtained from the injected constructor, or the
jaeger HTTP transport built by `transport.NewHTTPTransport` from a URL
and its options. -/
inductive Transport where
  | zipkinHTTP (t : ZipkinHTTPTransport)
  | jaegerHTTP (url : String) (opts : List JaegerHTTPOption)
deriving DecidableEq, Repr

/-- A non-composite `jaeger.Reporter` as constructed by configure: a
remote reporter over a transport, or the package's `spanLogger` log
sink. -/
inductive AtomicReporter where
  | remote (t : Transport)
  | spanLogger
deriving DecidableEq, Repr

/-- A `jaeger.Reporter` value as it occurs in this package: one of the
atomic reporters, or the composite reporter over the members handed to
`jaeger.NewCompositeReporter`. configure only ever passes the atomic
reporters it just built as members, so membership is restricted to
atomic reporters. -/
inductive Reporter where
  | atomic (a : AtomicReporter)
  | composite (rs : List AtomicReporter)
deriving DecidableEq, Repr

/-- The B3 zipkin propagator `zp.NewZipkinB3HTTPHeaderPropagator()`. -/
inductive Propagator where
  | zipkinB3HTTPHeader
deriving DecidableEq, Repr

/-- OpenTracing carrier formats (`ot.HTTPHeaders` and the other builtin
formats, which configure does not register). -/
inductive CarrierFormat where
  | httpHeaders
  | textMap
  | binary
deriving DecidableEq, Repr

/-- Jaeger samplers as used here: `jaeger.NewConstSampler b`. -/
inductive Sampler where
  | const (decision : Bool)
deriving DecidableEq, Repr

/-- `jaeger.TracerOption` values used by configure: `PoolSpans`,
`Injector` and `Extractor`. -/
inductive TracerOption where
  | poolSpans (b : Bool)
  | injector (format : CarrierFormat) (p : Propagator)
  | extractor (format : CarrierFormat) (p : Propagator)
deriving DecidableEq, Repr

/-- `sampler = jaeger.NewConstSampler(true)` from the `var` block. -/
def sampler : Sampler := Sampler.const true

/-- `poolSpans = jaeger.TracerOptions.PoolSpans(false)` from the `var`
block. -/
def poolSpans : TracerOption := TracerOption.poolSpans false

/-- The data `jaeger.NewTracer` is invoked with: service name, sampler,
reporter and tracer options. -/
structure TracerSpec where
  serviceName : String
  sampler : Sampler
  reporter : Reporter
  opts : List TracerOption
deriving DecidableEq, Repr

/-- An `ot.Tracer` value: the default `ot.NoopTracer` or a jaeger tracer.
`ref` models Go pointer identity: each construction draws a fresh number
from the `World` counter, so two tracers from distinct `Configure` calls
compare unequal exactly as distinct pointers do. -/
inductive OTTracer where
  | noop
  | jaeger (ref : Nat) (spec : TracerSpec)
deriving DecidableEq, Repr

/-- The `io.Closer` returned by `jaeger.NewTracer`, which closes the
tracer's reporter; tagged with the tracer's reference. -/
inductive Closer where
  | tracerCloser (ref : Nat) (rep : Reporter)
deriving DecidableEq, Repr

/-- The `holder` struct: the closer and tracer fields, each a Go
interface value that is `nil` (`none`) in the zero value `holder{}`. -/
structure Holder where
  closer : Option Closer
  tracer : Option OTTracer
deriving DecidableEq, Repr

/-- Process-wide mutable state: the opentracing global tracer slot
(`ot.GlobalTracer`/`ot.SetGlobalTracer`), plus the fresh-reference
counter modelling pointer allocation. -/
structure World where
  global : OTTracer
  nextRef : Nat
deriving DecidableEq, Repr

/-- Process start state: opentracing's default global is the no-op
tracer. -/
def World.init : World := { global := OTTracer.noop, nextRef := 0 }

/-- The injectable zipkin transport constructor type `newZipkin`. -/
abbrev NewZipkin := String → List ZipkinHTTPOption → Except String ZipkinHTTPTransport

/-- The option list configure passes to the zipkin constructor:
`zipkin.HTTPLogger(logger), zipkin.HTTPTimeout(httpTimeout)`. -/
def zipkinTransportOptions : List ZipkinHTTPOption :=
  [ZipkinHTTPOption.httpLogger, ZipkinHTTPOption.httpTimeout httpTimeout]

/-- The option list configure passes to `transport.NewHTTPTransport`:
`transport.HTTPTimeout(httpTimeout)`. -/
def jaegerTransportOptions : List JaegerHTTPOption :=
  [JaegerHTTPOption.httpTimeout httpTimeout]

/-- The zipkin step of reporter construction (lines 156-162): when
`ZipkinURL` is non-empty, call the injected constructor and either fail,
wrapping the cause, or start the reporter list with the remote reporter
over the new transport. -/
def zipkinReporters (options : Options) (nz : NewZipkin) :
    Except String (List AtomicReporter) :=
  if options.ZipkinURL ≠ "" then
    match nz options.ZipkinURL zipkinTransportOptions with
    | Except.error err => Except.error ("could not build zipkin reporter: " ++ err)
    | Except.ok zt => Except.ok [AtomicReporter.remote (Transport.zipkinHTTP zt)]
  else
    Except.ok []

/-- The jaeger and log-sink steps of reporter construction (lines
164-170): append the jaeger remote reporter when `JaegerURL` is
non-empty, then the `spanLogger` sink when `LogTraceSpans` is set. -/
def tailReporters (options : Options) : List AtomicReporter :=
  (if options.JaegerURL ≠ "" then
     [AtomicReporter.remote (Transport.jaegerHTTP options.JaegerURL jaegerTransportOptions)]
   else []) ++
  (if options.LogTraceSpans then [AtomicReporter.spanLogger] else [])

/-- The full reporter list built by configure, in source order: zipkin,
then jaeger, then log. -/
def buildReporters (options : Options) (nz : NewZipkin) :
    Except String (List AtomicReporter) :=
  (zipkinReporters options nz).map (fun rs => rs ++ tailReporters options)

/-- The tracer options configure passes to `jaeger.NewTracer`:
`poolSpans`, the B3 injector and the B3 extractor, both on the
`ot.HTTPHeaders` carrier format. -/
def tracerOpts : List TracerOption :=
  [poolSpans,
   TracerOption.injector CarrierFormat.httpHeaders Propagator.zipkinB3HTTPHeader,
   TracerOption.extractor CarrierFormat.httpHeaders Propagator.zipkinB3HTTPHeader]

/-- `configure(serviceName, options, nz)` as a state transformer on
`World`. The first component models Go's `(io.Closer, error)` pair:
`(none, some err)` is `(nil, err)`, `(some h, none)` is `(h, nil)`.
Mirrors options.go lines 149-197: validate, build the reporters, return
`holder{}` when there are none, otherwise use the single reporter
directly or the composite of all of them, build the tracer and set the
global tracer slot. -/
def configure (serviceName : String) (options : Options) (nz : NewZipkin)
    (w : World) : (Option Holder × Option String) × World :=
  match options.Validate with
  | some err => ((none, some err), w)
  | none =>
    match buildReporters options nz with
    | Except.error e => ((none, some e), w)
    | Except.ok reporters =>
      match reporters with
      | [] =>
        -- leave the default NoopTracer in place since there's no place
        -- for tracing to go...
        ((some { closer := none, tracer := none }, none), w)
      | r0 :: rest =>
        let rep : Reporter :=
          match rest with
          | [] => Reporter.atomic r0
          | _ :: _ => Reporter.composite (r0 :: rest)
        let spec : TracerSpec :=
          { serviceName := serviceName, sampler := sampler,
            reporter := rep, opts := tracerOpts }
        let tracer := OTTracer.jaeger w.nextRef spec
        ((some { closer := some (Closer.tracerCloser w.nextRef rep),
                 tracer := some tracer }, none),
         { global := tracer, nextRef := w.nextRef + 1 })

/-- `holder.Close` (lines 199-209): reset the global slot to the no-op
tracer when the installed global tracer is the one this holder holds;
invoke the closer when the holder owns one; always return a `nil` error.
The `Bool` in the result records whether `h.closer.Close()` was invoked
(the release of the backend resources). -/
def Holder.Close (h : Holder) (w : World) : (Option String × Bool) × World :=
  let w' := if some w.global = h.tracer then { w with global := OTTracer.noop } else w
  let closerInvoked := h.closer.isSome
  ((none, closerInvoked), w')

/-- Modelled from the spec: the fan-out of a report call. The composite
reporter comes from the jaeger client library (outside this repository);
per the spec, reporting a span through it fans out to every member in
construction order, while an atomic reporter handles the span itself. -/
def Reporter.reportFanout : Reporter → List AtomicReporter
  | Reporter.atomic a => [a]
  | Reporter.composite rs => rs

/-- Modelled from the spec: the fan-out of a close call; the composite
reporter closes every member in construction order, an atomic reporter
closes itself. -/
def Reporter.closeFanout : Reporter → List AtomicReporter
  | Reporter.atomic a => [a]
  | Reporter.composite rs => rs

/-- Classification of a reporter by origin, used to state the fixed
construction order. -/
inductive RKind where
  | zipkinRemote
  | jaegerRemote
  | logSink
deriving DecidableEq, Repr

/-- The origin kind of an atomic reporter. -/
def AtomicReporter.kind : AtomicReporter → RKind
  | AtomicReporter.remote (Transport.zipkinHTTP _) => RKind.zipkinRemote
  | AtomicReporter.remote (Transport.jaegerHTTP _ _) => RKind.jaegerRemote
  | AtomicReporter.spanLogger => RKind.logSink

/-- Sample zipkin constructor that always succeeds, used by witnesses. -/
def exNZ : NewZipkin := fun _ _ => Except.ok { ref := 0 }

/-- Sample zipkin constructor that always fails, used by witnesses. -/
def exNZFail : NewZipkin := fun _ _ => Except.error "boom"

/-- The tracer spec configure hands to `jaeger.NewTracer` for a given
service name and composed reporter. -/
def mkSpec (name : String) (rep : Reporter) : TracerSpec :=
  { serviceName := name, sampler := sampler, reporter := rep, opts := tracerOpts }

/-- Options with all three fields empty/false (tracing disabled). -/
def exOptionsOff : Options := { ZipkinURL := "", JaegerURL := "", LogTraceSpans := false }

/-- Options enabling only the log sink. -/
def exOptionsLog : Options := { ZipkinURL := "", JaegerURL := "", LogTraceSpans := true }

/-- The log-sink reporter as composed when it is the only one. -/
def exRep : Reporter := Reporter.atomic AtomicReporter.spanLogger

/-- The tracer a log-only configure builds from the initial world. -/
def exTracerA : OTTracer := OTTracer.jaeger 0 (mkSpec "svcA" exRep)

/-- The tracer a second log-only configure builds after the first. -/
def exTracerB : OTTracer := OTTracer.jaeger 1 (mkSpec "svcB" exRep)

/-- The holder returned by the first configure. -/
def exHolderA : Holder :=
  { closer := some (Closer.tracerCloser 0 exRep), tracer := some exTracerA }

/-- The holder returned by the second configure. -/
def exHolderB : Holder :=
  { closer := some (Closer.tracerCloser 1 exRep), tracer := some exTracerB }

/-- The world after the first configure. -/
def exWorldA : World := { global := exTracerA, nextRef := 1 }

/-- The world after the second configure. -/
def exWorldB : World := { global := exTracerB, nextRef := 2 }

/-- Options with both collector URLs set (the invalid combination). -/
def exOptionsBoth : Options :=
  { ZipkinURL := "http://zipkin:9411/api/v1/spans",
    JaegerURL := "http://jaeger:14268/api/traces", LogTraceSpans := false }

/-- Options enabling only the zipkin backend. -/
def exOptionsZ : Options :=
  { ZipkinURL := "http://zipkin:9411/api/v1/spans", JaegerURL := "",
    LogTraceSpans := false }

/-- Options enabling the jaeger backend and the log sink. -/
def exOptionsJL : Options :=
  { ZipkinURL := "", JaegerURL := "http://jaeger:14268/api/traces",
    LogTraceSpans := true }

/-- The reporter list configure builds for `exOptionsJL`. -/
def exRepsJL : List AtomicReporter :=
  [AtomicReporter.remote
     (Transport.jaegerHTTP "http://jaeger:14268/api/traces" jaegerTransportOptions),
   AtomicReporter.spanLogger]

/-- The composite reporter configure builds for `exOptionsJL`. -/
def exRepJL : Reporter := Reporter.composite exRepsJL

/-- The tracer configure builds for `exOptionsJL` from the initial world. -/
def exTracerJL : OTTracer := OTTracer.jaeger 0 (mkSpec "svc" exRepJL)

/-- The holder configure returns for `exOptionsJL`. -/
def exHolderJL : Holder :=
  { closer := some (Closer.tracerCloser 0 exRepJL), tracer := some exTracerJL }

/-- The world after configuring `exOptionsJL` from the initial world. -/
def exWorldJL : World := { global := exTracerJL, nextRef := 1 }

/-! ## Helper lemmas -/

lemma validate_none_iff (o : Options) :
    o.Validate = none ↔ (o.JaegerURL = "" ∨ o.ZipkinURL = "") := by
  unfold Options.Validate
  split
  · next h => simp only [reduceCtorEq, false_iff]; push_neg; exact ⟨h.1, h.2⟩
  · next h => simp only [true_iff]; tauto

lemma validate_some_iff (o : Options) :
    (o.JaegerURL ≠ "" ∧ o.ZipkinURL ≠ "") →
    o.Validate = some "can't have Jaeger and Zipkin outputs active simultaneously" := by
  intro h
  unfold Options.Validate
  simp [h.1, h.2]

lemma zipkinReporters_ok (o : Options) (nz : NewZipkin) (zs : List AtomicReporter)
    (h : zipkinReporters o nz = Except.ok zs) :
    (o.ZipkinURL = "" ∧ zs = []) ∨
    (o.ZipkinURL ≠ "" ∧ ∃ zt, nz o.ZipkinURL zipkinTransportOptions = Except.ok zt ∧
       zs = [AtomicReporter.remote (Transport.zipkinHTTP zt)]) := by
  unfold zipkinReporters at h
  by_cases hz : o.ZipkinURL = ""
  · simp [hz] at h
    exact Or.inl ⟨hz, h⟩
  · simp only [hz, ne_eq, not_false_eq_true, if_true, if_pos] at h
    cases hnz : nz o.ZipkinURL zipkinTransportOptions with
    | error e => rw [hnz] at h; cases h
    | ok zt =>
      rw [hnz] at h
      cases h
      exact Or.inr ⟨hz, zt, rfl, rfl⟩

lemma buildReporters_ok (o : Options) (nz : NewZipkin) (rs : List AtomicReporter)
    (h : buildReporters o nz = Except.ok rs) :
    ∃ zs, zipkinReporters o nz = Except.ok zs ∧ rs = zs ++ tailReporters o := by
  unfold buildReporters at h
  cases hz : zipkinReporters o nz with
  | error e => rw [hz] at h; cases h
  | ok zs =>
    rw [hz] at h
    cases h
    exact ⟨zs, rfl, rfl⟩

/-- Characterization of a successful `configure` run: validation passed,
and either no reporter was built (zero-value holder, world untouched) or
the reporters were composed, a tracer with a fresh reference was built
and installed in the global slot. -/
lemma configure_ok_cases
    (name : String) (o : Options) (nz : NewZipkin) (w : World)
    (hd : Holder) (w' : World)
    (hc : configure name o nz w = ((some hd, none), w')) :
    o.Validate = none ∧
    ((hd = { closer := none, tracer := none } ∧ w' = w ∧
      buildReporters o nz = Except.ok []) ∨
     (∃ r0 rest rep,
        buildReporters o nz = Except.ok (r0 :: rest) ∧
        rep = (match rest with
               | [] => Reporter.atomic r0
               | _ :: _ => Reporter.composite (r0 :: rest)) ∧
        hd = { closer := some (Closer.tracerCloser w.nextRef rep),
               tracer := some (OTTracer.jaeger w.nextRef (mkSpec name rep)) } ∧
        w' = { global := OTTracer.jaeger w.nextRef (mkSpec name rep),
               nextRef := w.nextRef + 1 })) := by
  unfold configure at hc
  cases hv : o.Validate with
  | some e => rw [hv] at hc; simp at hc
  | none =>
    rw [hv] at hc
    refine ⟨rfl, ?_⟩
    cases hb : buildReporters o nz with
    | error e => rw [hb] at hc; simp at hc
    | ok reporters =>
      rw [hb] at hc
      cases reporters with
      | nil =>
        simp only [Prod.mk.injEq, Option.some.injEq] at hc
        exact Or.inl ⟨hc.1.1.symm, hc.2.symm, rfl⟩
      | cons r0 rest =>
        simp only [Prod.mk.injEq, Option.some.injEq] at hc
        exact Or.inr ⟨r0, rest, _, rfl, rfl, hc.1.1.symm, hc.2.symm⟩

/-! ## Claim theorems -/

/-- C8: `TracingEnabled()` is true iff at least one of the three fields
requests a backend; it is a pure function of the `Options` value (no
state parameter), hence side-effect free and total. -/
theorem tracingEnabled_iff (o : Options) :
    o.TracingEnabled = true ↔
      (o.ZipkinURL ≠ "" ∨ o.JaegerURL ≠ "" ∨ o.LogTraceSpans = true) := by
  unfold Options.TracingEnabled
  simp only [Bool.or_eq_true, bne_iff_ne, ne_eq]
  tauto

/-- C1: with both `zipkinURL` and `jaegerURL` non-empty, `Validate`
returns the ConfigError and `configure` returns that same error with a
nil handle and the world — in particular the global tracer slot —
unchanged, for every injected constructor (so no reporter is
constructed); for every other `Options` value `Validate` returns `nil`
(being a pure function, it has no side effect). -/
theorem validate_configure_conflict
    (o : Options) (name : String) (nz : NewZipkin) (w : World) :
    (o.ZipkinURL ≠ "" → o.JaegerURL ≠ "" →
       o.Validate = some "can't have Jaeger and Zipkin outputs active simultaneously" ∧
       configure name o nz w =
         ((none, some "can't have Jaeger and Zipkin outputs active simultaneously"), w)) ∧
    ((o.ZipkinURL = "" ∨ o.JaegerURL = "") → o.Validate = none) := by
  constructor
  · intro hz hj
    have hv := validate_some_iff o ⟨hj, hz⟩
    refine ⟨hv, ?_⟩
    unfold configure
    rw [hv]
  · intro h
    exact (validate_none_iff o).mpr h.symm

/-- Every `configure` result is either `(nil, err)` or `(handle, nil)`. -/
lemma configure_shape (name : String) (o : Options) (nz : NewZipkin) (w : World) :
    ((configure name o nz w).1.1 = none ∧ ∃ e, (configure name o nz w).1.2 = some e) ∨
    (∃ h, (configure name o nz w).1.1 = some h ∧ (configure name o nz w).1.2 = none) := by
  unfold configure
  split
  · exact Or.inl ⟨rfl, _, rfl⟩
  · split
    · exact Or.inl ⟨rfl, _, rfl⟩
    · split
      · exact Or.inr ⟨_, rfl, rfl⟩
      · exact Or.inr ⟨_, rfl, rfl⟩

/-- C9: whenever `configure` returns a non-nil error, the handle it
returns is `nil` (`none`); the usage sample in the source comment then
calls `Close` on that nil `io.Closer`, a nil dereference rather than a
no-op. -/
theorem configure_error_nil_handle
    (name : String) (o : Options) (nz : NewZipkin) (w : World) (e : String)
    (he : (configure name o nz w).1.2 = some e) :
    (configure name o nz w).1.1 = none := by
  rcases configure_shape name o nz w with ⟨h1, -⟩ | ⟨h, -, h2⟩
  · exact h1
  · rw [h2] at he; cases he

/-- C6: with `zipkinURL` empty, `configure` always succeeds (non-nil
handle, nil error) — the jaeger transport constructor cannot fail at
this layer — and both the zipkin and jaeger transport option lists carry
the same fixed `httpTimeout` of 5 seconds. -/
theorem configure_no_zipkin_no_error
    (name : String) (o : Options) (nz : NewZipkin) (w : World)
    (hz : o.ZipkinURL = "") :
    (configure name o nz w).1.2 = none ∧
    (configure name o nz w).1.1.isSome = true ∧
    ZipkinHTTPOption.httpTimeout httpTimeout ∈ zipkinTransportOptions ∧
    jaegerTransportOptions = [JaegerHTTPOption.httpTimeout httpTimeout] ∧
    httpTimeout = 5 * second := by
  have hv : o.Validate = none := (validate_none_iff o).mpr (Or.inr hz)
  have hzr : zipkinReporters o nz = Except.ok [] := by
    unfold zipkinReporters; simp [hz]
  have hb : buildReporters o nz = Except.ok (tailReporters o) := by
    unfold buildReporters; rw [hzr]; rfl
  refine ⟨?_, ?_, by simp [zipkinTransportOptions], rfl, rfl⟩ <;>
    · unfold configure
      rw [hv, hb]
      cases tailReporters o with
      | nil => rfl
      | cons r0 rest => rfl

/-- C2: `holder.Close` always returns a `nil` error, invokes the closer
exactly when the holder owns one (independently of the identity check),
resets the global slot to the no-op tracer when the installed global
tracer is the one this holder installed, leaves the world untouched
otherwise, and a second `Close` is safe (returns the same success and
changes nothing further). In the two-handle scenario — configure A from
`w0`, then configure B from the resulting world, both installing a
tracer — B's tracer occupies the global slot, A's `Close` does not clear
it, and B's `Close` resets it to the no-op tracer. -/
theorem holder_close_ownership
    (h : Holder) (w : World)
    (nameA nameB : String) (oA oB : Options) (nzA nzB : NewZipkin) (w0 : World)
    (hA hB : Holder) (wA wB : World) (tA tB : OTTracer)
    (hcA : configure nameA oA nzA w0 = ((some hA, none), wA))
    (hcB : configure nameB oB nzB wA = ((some hB, none), wB))
    (htA : hA.tracer = some tA) (htB : hB.tracer = some tB) :
    (Holder.Close h w).1.1 = none ∧
    (Holder.Close h w).1.2 = h.closer.isSome ∧
    (some w.global = h.tracer → (Holder.Close h w).2.global = OTTracer.noop) ∧
    (some w.global ≠ h.tracer → (Holder.Close h w).2 = w) ∧
    Holder.Close h ((Holder.Close h w).2) =
      ((none, h.closer.isSome), (Holder.Close h w).2) ∧
    wB.global = tB ∧
    (Holder.Close hA wB).2.global = tB ∧
    (Holder.Close hB wB).2.global = OTTracer.noop := by
  obtain ⟨-, caseA⟩ := configure_ok_cases _ _ _ _ _ _ hcA
  obtain ⟨-, caseB⟩ := configure_ok_cases _ _ _ _ _ _ hcB
  rcases caseA with ⟨hdA, -, -⟩ | ⟨r0A, restA, repA, -, -, hdA, hwA⟩
  · rw [hdA] at htA; cases htA
  rcases caseB with ⟨hdB, -, -⟩ | ⟨r0B, restB, repB, -, -, hdB, hwB⟩
  · rw [hdB] at htB; cases htB
  subst hdA hdB hwA hwB
  simp only [Option.some.injEq] at htA htB
  subst htA htB
  refine ⟨rfl, rfl, ?_, ?_, ?_, rfl, ?_, ?_⟩
  · intro hid
    unfold Holder.Close
    simp [hid]
  · intro hid
    unfold Holder.Close
    simp [hid]
  · unfold Holder.Close
    by_cases hid : some w.global = h.tracer
    · rw [if_pos hid]
      by_cases hid2 : some OTTracer.noop = h.tracer
      · rw [if_pos hid2]
      · rw [if_neg hid2]
    · rw [if_neg hid, if_neg hid]
  · unfold Holder.Close
    rw [if_neg (by simp)]
  · unfold Holder.Close
    rw [if_pos (by simp)]

/-- C4: when `zipkinURL` is non-empty, validation passes, and the
injected zipkin transport constructor fails with `e`, `configure`
returns immediately with a nil handle and the error wrapping `e`, and
the world — global tracer slot included — is unchanged. -/
theorem configure_zipkin_failure
    (name : String) (o : Options) (nz : NewZipkin) (w : World) (e : String)
    (hz : o.ZipkinURL ≠ "") (hv : o.Validate = none)
    (hfail : nz o.ZipkinURL zipkinTransportOptions = Except.error e) :
    configure name o nz w =
      ((none, some ("could not build zipkin reporter: " ++ e)), w) := by
  have hzr : zipkinReporters o nz =
      Except.error ("could not build zipkin reporter: " ++ e) := by
    unfold zipkinReporters
    rw [if_pos hz, hfail]
  have hb : buildReporters o nz =
      Except.error ("could not build zipkin reporter: " ++ e) := by
    unfold buildReporters; rw [hzr]; rfl
  unfold configure
  rw [hv, hb]

/-- C7: every tracer `configure` builds and installs uses the fixed
always-sample sampler, has span pooling disabled, and registers exactly
one injector and one extractor, both the B3 zipkin propagator on the
HTTP-headers carrier format and nothing else; the same tracer occupies
the global slot afterwards. -/
theorem configure_tracer_policy
    (name : String) (o : Options) (nz : NewZipkin) (w : World)
    (hd : Holder) (w' : World) (i : Nat) (spec : TracerSpec)
    (hc : configure name o nz w = ((some hd, none), w'))
    (ht : hd.tracer = some (OTTracer.jaeger i spec)) :
    spec.sampler = Sampler.const true ∧
    spec.opts = [TracerOption.poolSpans false,
      TracerOption.injector CarrierFormat.httpHeaders Propagator.zipkinB3HTTPHeader,
      TracerOption.extractor CarrierFormat.httpHeaders Propagator.zipkinB3HTTPHeader] ∧
    (∀ f p, TracerOption.injector f p ∈ spec.opts →
       f = CarrierFormat.httpHeaders ∧ p = Propagator.zipkinB3HTTPHeader) ∧
    (∀ f p, TracerOption.extractor f p ∈ spec.opts →
       f = CarrierFormat.httpHeaders ∧ p = Propagator.zipkinB3HTTPHeader) ∧
    (∀ b, TracerOption.poolSpans b ∈ spec.opts → b = false) ∧
    spec.serviceName = name ∧
    w'.global = OTTracer.jaeger i spec := by
  obtain ⟨-, hcase⟩ := configure_ok_cases _ _ _ _ _ _ hc
  rcases hcase with ⟨hdE, -, -⟩ | ⟨r0, rest, rep, -, -, hdE, hwE⟩
  · rw [hdE] at ht; cases ht
  · rw [hdE] at ht
    simp only [Option.some.injEq, OTTracer.jaeger.injEq] at ht
    obtain ⟨hi, hspec⟩ := ht
    subst hi hspec hwE
    refine ⟨rfl, rfl, ?_, ?_, ?_, rfl, rfl⟩
    · intro f p hmem
      simp only [mkSpec, tracerOpts, poolSpans, List.mem_cons,
        List.not_mem_nil, or_false] at hmem
      rcases hmem with hmem | hmem | hmem <;> cases hmem
      exact ⟨rfl, rfl⟩
    · intro f p hmem
      simp only [mkSpec, tracerOpts, poolSpans, List.mem_cons,
        List.not_mem_nil, or_false] at hmem
      rcases hmem with hmem | hmem | hmem <;> cases hmem
      exact ⟨rfl, rfl⟩
    · intro b hmem
      simp only [mkSpec, tracerOpts, poolSpans, List.mem_cons,
        List.not_mem_nil, or_false] at hmem
      rcases hmem with hmem | hmem | hmem <;> cases hmem
      rfl

/-- C5 counterexample: with all three options off, `configure` succeeds
but does NOT install a no-op tracer: run against a world whose global
slot holds a previously installed tracer, the slot keeps that tracer
(the code skips `SetGlobalTracer` entirely on the zero-reporter path),
so the global tracer after the call is not the no-op tracer. -/
theorem configure_disabled_counterexample :
    exOptionsOff.ZipkinURL = "" ∧ exOptionsOff.JaegerURL = "" ∧
    exOptionsOff.LogTraceSpans = false ∧
    (configure "svc" exOptionsOff exNZ exWorldA).1.2 = none ∧
    (configure "svc" exOptionsOff exNZ exWorldA).1.1.isSome = true ∧
    (configure "svc" exOptionsOff exNZ exWorldA).2.global ≠ OTTracer.noop := by
  refine ⟨rfl, rfl, rfl, rfl, rfl, ?_⟩
  intro hcontra
  exact absurd hcontra (by decide)

/-- C5 as amended: with all three fields empty/false, `TracingEnabled`
is false and `configure` succeeds with the zero-value holder (no tracer,
no closer), leaving the world — and hence the global tracer slot —
unchanged (so the default no-op tracer stays in place when nothing was
installed before); the returned handle's `Close` is a no-op on any
world: it returns success, resets nothing and invokes no closer. -/
theorem configure_disabled_amended
    (name : String) (nz : NewZipkin) (w w2 : World) (o : Options)
    (h1 : o.ZipkinURL = "") (h2 : o.JaegerURL = "") (h3 : o.LogTraceSpans = false) :
    o.TracingEnabled = false ∧
    configure name o nz w = ((some { closer := none, tracer := none }, none), w) ∧
    Holder.Close { closer := none, tracer := none } w2 = ((none, false), w2) := by
  have hv : o.Validate = none := (validate_none_iff o).mpr (Or.inl h2)
  have hzr : zipkinReporters o nz = Except.ok [] := by
    unfold zipkinReporters; simp [h1]
  have hb : buildReporters o nz = Except.ok [] := by
    unfold buildReporters
    rw [hzr]
    simp [tailReporters, h2, h3, Except.map]
  refine ⟨?_, ?_, ?_⟩
  · simp [Options.TracingEnabled, h1, h2, h3]
  · unfold configure
    rw [hv, hb]
  · unfold Holder.Close
    simp

/-- C3: whenever `configure` installs a tracer, the reporter list it was
built from is non-empty, in the fixed zipkin-jaeger-log order (its kinds
form a sublist of that order); a single reporter is used directly as the
tracer's reporter, two or more are wrapped in the composite reporter of
the whole list, and the tracer's reporter fans out reports and closes to
exactly the built reporters in construction order. -/
lemma tail_kinds_sublist (o : Options) :
    List.Sublist ((tailReporters o).map AtomicReporter.kind)
      [RKind.jaegerRemote, RKind.logSink] := by
  unfold tailReporters
  rw [List.map_append]
  have h1 : List.Sublist
      ((if o.JaegerURL ≠ "" then
          [AtomicReporter.remote (Transport.jaegerHTTP o.JaegerURL jaegerTransportOptions)]
        else []).map AtomicReporter.kind) [RKind.jaegerRemote] := by
    split
    · simp only [List.map_cons, List.map_nil, AtomicReporter.kind]
      decide
    · simp
  have h2 : List.Sublist
      ((if o.LogTraceSpans then [AtomicReporter.spanLogger] else []).map
        AtomicReporter.kind) [RKind.logSink] := by
    split
    · simp only [List.map_cons, List.map_nil, AtomicReporter.kind]
      decide
    · simp
  exact List.Sublist.append h1 h2

lemma built_kinds_sublist (o : Options) (nz : NewZipkin)
    (rs : List AtomicReporter) (hb : buildReporters o nz = Except.ok rs) :
    List.Sublist (rs.map AtomicReporter.kind)
      [RKind.zipkinRemote, RKind.jaegerRemote, RKind.logSink] := by
  obtain ⟨zs, hzs, hcat⟩ := buildReporters_ok o nz _ hb
  subst hcat
  rw [List.map_append]
  have hz : List.Sublist (zs.map AtomicReporter.kind) [RKind.zipkinRemote] := by
    rcases zipkinReporters_ok o nz zs hzs with ⟨-, hz0⟩ | ⟨-, zt, -, hz1⟩
    · subst hz0; simp
    · subst hz1
      simp only [List.map_cons, List.map_nil, AtomicReporter.kind]
      decide
  have hall := List.Sublist.append hz (tail_kinds_sublist o)
  simpa using hall

/-- C3: whenever `configure` installs a tracer, the reporter list it was
built from is non-empty and in the fixed zipkin-jaeger-log order (its
kinds form a sublist of that order); a single reporter is used directly
as the tracer's reporter, two or more are wrapped in the composite
reporter of the whole list, and the tracer's reporter fans out reports
and closes to exactly the built reporters, in construction order. -/
theorem configure_reporter_composition
    (name : String) (o : Options) (nz : NewZipkin) (w : World)
    (hd : Holder) (w' : World) (i : Nat) (spec : TracerSpec)
    (hc : configure name o nz w = ((some hd, none), w'))
    (ht : hd.tracer = some (OTTracer.jaeger i spec)) :
    ∃ reporters, buildReporters o nz = Except.ok reporters ∧
      reporters ≠ [] ∧
      List.Sublist (reporters.map AtomicReporter.kind)
        [RKind.zipkinRemote, RKind.jaegerRemote, RKind.logSink] ∧
      (∀ r, reporters = [r] → spec.reporter = Reporter.atomic r) ∧
      (2 ≤ reporters.length → spec.reporter = Reporter.composite reporters) ∧
      spec.reporter.reportFanout = reporters ∧
      spec.reporter.closeFanout = reporters := by
  obtain ⟨-, hcase⟩ := configure_ok_cases _ _ _ _ _ _ hc
  rcases hcase with ⟨hdE, -, -⟩ | ⟨r0, rest, rep, hb, hrep, hdE, -⟩
  · rw [hdE] at ht; cases ht
  · rw [hdE] at ht
    simp only [Option.some.injEq, OTTracer.jaeger.injEq] at ht
    obtain ⟨-, hspec⟩ := ht
    subst hspec
    subst hrep
    refine ⟨r0 :: rest, hb, by simp, built_kinds_sublist o nz _ hb, ?_, ?_, ?_, ?_⟩
    · intro r hr
      cases rest with
      | nil =>
        have : r0 = r := by simpa using hr
        subst this
        rfl
      | cons x xs => simp at hr
    · intro hlen
      cases rest with
      | nil => simp at hlen
      | cons x xs => rfl
    · cases rest with
      | nil => rfl
      | cons x xs => rfl
    · cases rest with
      | nil => rfl
      | cons x xs => rfl

/-- C10: for options that pass `Validate`, the reporter list configure
builds has length at most 2 (zipkin and jaeger are mutually exclusive);
whenever it has two elements they are exactly one URL-backend remote
reporter followed by the log sink, and consequently the composite
reporter, whenever configure builds one, has exactly those two members
in that order. -/
theorem reporters_at_most_two
    (o : Options) (nz : NewZipkin) (rs : List AtomicReporter)
    (hv : o.Validate = none)
    (hb : buildReporters o nz = Except.ok rs) :
    rs.length ≤ 2 ∧
    (∀ r0 r1 rest, rs = r0 :: r1 :: rest →
       rest = [] ∧ (∃ t, r0 = AtomicReporter.remote t) ∧
       r1 = AtomicReporter.spanLogger) ∧
    (∀ name w hd w' i spec ms,
       configure name o nz w = ((some hd, none), w') →
       hd.tracer = some (OTTracer.jaeger i spec) →
       spec.reporter = Reporter.composite ms →
       ∃ t, ms = [AtomicReporter.remote t, AtomicReporter.spanLogger]) := by
  have hor := (validate_none_iff o).mp hv
  have key : rs.length ≤ 2 ∧
      (∀ r0 r1 rest, rs = r0 :: r1 :: rest →
         rest = [] ∧ (∃ t, r0 = AtomicReporter.remote t) ∧
         r1 = AtomicReporter.spanLogger) := by
    obtain ⟨zs, hzs, hcat⟩ := buildReporters_ok o nz rs hb
    subst hcat
    rcases zipkinReporters_ok o nz zs hzs with ⟨hzE, hz0⟩ | ⟨hzN, zt, -, hz1⟩
    · subst hz0
      by_cases hj : o.JaegerURL = "" <;> by_cases hl : o.LogTraceSpans = true <;>
        simp [tailReporters, hj, hl] <;>
        exact fun r0 r1 rest h0 h1 h2 => ⟨h2, ⟨_, h0.symm⟩, h1.symm⟩
    · subst hz1
      have hj : o.JaegerURL = "" := hor.resolve_right hzN
      by_cases hl : o.LogTraceSpans = true <;>
        simp [tailReporters, hj, hl] <;>
        exact fun r0 r1 rest h0 h1 h2 => ⟨h2, ⟨_, h0.symm⟩, h1.symm⟩
  refine ⟨key.1, key.2, ?_⟩
  intro name w hd w' i spec ms hc ht hcomp
  obtain ⟨-, hcase⟩ := configure_ok_cases _ _ _ _ _ _ hc
  rcases hcase with ⟨hdE, -, -⟩ | ⟨r0, rest, rep, hb2, hrep, hdE, -⟩
  · rw [hdE] at ht; cases ht
  · rw [hdE] at ht
    simp only [Option.some.injEq, OTTracer.jaeger.injEq] at ht
    obtain ⟨-, hspec⟩ := ht
    subst hspec
    subst hrep
    rw [hb] at hb2
    have hrs : rs = r0 :: rest := by
      simpa using hb2
    cases rest with
    | nil => simp [mkSpec] at hcomp
    | cons x xs =>
      have hms : r0 :: x :: xs = ms := by
        simpa [mkSpec] using hcomp
      obtain ⟨hxs, ⟨t, hr0⟩, hr1⟩ := key.2 r0 x xs hrs
      refine ⟨t, ?_⟩
      rw [← hms, hr0, hr1, hxs]

/-! ## Witnesses -/

/-- Witness for C1 at concrete conflicting options. -/
theorem validate_configure_conflict_witness :
    exOptionsBoth.Validate =
      some "can't have Jaeger and Zipkin outputs active simultaneously" ∧
    configure "svc" exOptionsBoth exNZ World.init =
      ((none, some "can't have Jaeger and Zipkin outputs active simultaneously"),
       World.init) :=
  (validate_configure_conflict exOptionsBoth "svc" exNZ World.init).1
    (by decide) (by decide)

/-- Witness for C2: two concrete log-only configures from the initial
world; A's handle, closed against B's world, does not clear B's tracer,
B's handle does. -/
theorem holder_close_ownership_witness :
    (Holder.Close exHolderA exWorldB).1.1 = none ∧
    (Holder.Close exHolderA exWorldB).1.2 = exHolderA.closer.isSome ∧
    (some exWorldB.global = exHolderA.tracer →
       (Holder.Close exHolderA exWorldB).2.global = OTTracer.noop) ∧
    (some exWorldB.global ≠ exHolderA.tracer →
       (Holder.Close exHolderA exWorldB).2 = exWorldB) ∧
    Holder.Close exHolderA ((Holder.Close exHolderA exWorldB).2) =
      ((none, exHolderA.closer.isSome), (Holder.Close exHolderA exWorldB).2) ∧
    exWorldB.global = exTracerB ∧
    (Holder.Close exHolderA exWorldB).2.global = exTracerB ∧
    (Holder.Close exHolderB exWorldB).2.global = OTTracer.noop :=
  holder_close_ownership exHolderA exWorldB "svcA" "svcB" exOptionsLog exOptionsLog
    exNZ exNZ World.init exHolderA exHolderB exWorldA exWorldB exTracerA exTracerB
    rfl rfl rfl rfl

/-- Witness for C3 at the jaeger-plus-log configuration. -/
theorem configure_reporter_composition_witness :
    ∃ reporters, buildReporters exOptionsJL exNZ = Except.ok reporters ∧
      reporters ≠ [] ∧
      List.Sublist (reporters.map AtomicReporter.kind)
        [RKind.zipkinRemote, RKind.jaegerRemote, RKind.logSink] ∧
      (∀ r, reporters = [r] →
         (mkSpec "svc" exRepJL).reporter = Reporter.atomic r) ∧
      (2 ≤ reporters.length →
         (mkSpec "svc" exRepJL).reporter = Reporter.composite reporters) ∧
      (mkSpec "svc" exRepJL).reporter.reportFanout = reporters ∧
      (mkSpec "svc" exRepJL).reporter.closeFanout = reporters :=
  configure_reporter_composition "svc" exOptionsJL exNZ World.init exHolderJL
    exWorldJL 0 (mkSpec "svc" exRepJL) rfl rfl

/-- Witness for C4: a concrete zipkin-only configuration whose injected
constructor fails. -/
theorem configure_zipkin_failure_witness :
    configure "svc" exOptionsZ exNZFail World.init =
      ((none, some ("could not build zipkin reporter: " ++ "boom")), World.init) :=
  configure_zipkin_failure "svc" exOptionsZ exNZFail World.init "boom"
    (by decide) rfl rfl

/-- Witness for the amended C5 at concrete all-off options. -/
theorem configure_disabled_amended_witness :
    exOptionsOff.TracingEnabled = false ∧
    configure "svc" exOptionsOff exNZ World.init =
      ((some { closer := none, tracer := none }, none), World.init) ∧
    Holder.Close { closer := none, tracer := none } exWorldA =
      ((none, false), exWorldA) :=
  configure_disabled_amended "svc" exNZ World.init exWorldA exOptionsOff rfl rfl rfl

/-- Witness for C6 at the jaeger-plus-log configuration. -/
theorem configure_no_zipkin_no_error_witness :
    (configure "svc" exOptionsJL exNZ World.init).1.2 = none ∧
    (configure "svc" exOptionsJL exNZ World.init).1.1.isSome = true ∧
    ZipkinHTTPOption.httpTimeout httpTimeout ∈ zipkinTransportOptions ∧
    jaegerTransportOptions = [JaegerHTTPOption.httpTimeout httpTimeout] ∧
    httpTimeout = 5 * second :=
  configure_no_zipkin_no_error "svc" exOptionsJL exNZ World.init rfl

/-- Witness for C7 at the jaeger-plus-log configuration. -/
theorem configure_tracer_policy_witness :
    (mkSpec "svc" exRepJL).sampler = Sampler.const true ∧
    (mkSpec "svc" exRepJL).opts = [TracerOption.poolSpans false,
      TracerOption.injector CarrierFormat.httpHeaders Propagator.zipkinB3HTTPHeader,
      TracerOption.extractor CarrierFormat.httpHeaders Propagator.zipkinB3HTTPHeader] ∧
    (∀ f p, TracerOption.injector f p ∈ (mkSpec "svc" exRepJL).opts →
       f = CarrierFormat.httpHeaders ∧ p = Propagator.zipkinB3HTTPHeader) ∧
    (∀ f p, TracerOption.extractor f p ∈ (mkSpec "svc" exRepJL).opts →
       f = CarrierFormat.httpHeaders ∧ p = Propagator.zipkinB3HTTPHeader) ∧
    (∀ b, TracerOption.poolSpans b ∈ (mkSpec "svc" exRepJL).opts → b = false) ∧
    (mkSpec "svc" exRepJL).serviceName = "svc" ∧
    exWorldJL.global = OTTracer.jaeger 0 (mkSpec "svc" exRepJL) :=
  configure_tracer_policy "svc" exOptionsJL exNZ World.init exHolderJL exWorldJL 0
    (mkSpec "svc" exRepJL) rfl rfl

/-- Witness for C9 at concrete conflicting options. -/
theorem configure_error_nil_handle_witness :
    (configure "svc" exOptionsBoth exNZ World.init).1.2 =
      some "can't have Jaeger and Zipkin outputs active simultaneously" ∧
    (configure "svc" exOptionsBoth exNZ World.init).1.1 = none :=
  ⟨rfl, configure_error_nil_handle "svc" exOptionsBoth exNZ World.init _ rfl⟩

/-- Witness for C10 at the jaeger-plus-log configuration. -/
theorem reporters_at_most_two_witness :
    exRepsJL.length ≤ 2 ∧
    (∀ r0 r1 rest, exRepsJL = r0 :: r1 :: rest →
       rest = [] ∧ (∃ t, r0 = AtomicReporter.remote t) ∧
       r1 = AtomicReporter.spanLogger) ∧
    (∀ name w hd w' i spec ms,
       configure name exOptionsJL exNZ w = ((some hd, none), w') →
       hd.tracer = some (OTTracer.jaeger i spec) →
       spec.reporter = Reporter.composite ms →
       ∃ t, ms = [AtomicReporter.remote t, AtomicReporter.spanLogger]) :=
  reporters_at_most_two exOptionsJL exNZ exRepsJL rfl rfl

end Tracing
